import Mathlib

/-!
Shallow embedding of `src/core/src/quic_connection.rs`: the single-connection
state manager `QuicConnection` (lazy connect, staleness detection via
`last_stable_id`, send-with-retry loop, timeout statistics) and the fixed-size
`QuicConnectionPool` (one counting permit set per connection, pre-warm on first
use).

The external transport collaborator (`QuicConnectionUtils::connect`,
`open_unistream`, `write_all`) and the endpoint supply (`RotatingQueue::get`)
are not part of the embedded source file; they are modelled from the spec's
collaborator contracts as scripted oracles.  A `Transport` script fixes the
outcome handed back by each primitive on its n-th invocation, and a
`TransportState` trace counts the calls the core makes into each primitive,
so that theorems can speak about "number of connect attempts", "payloads
delivered", and "timeouts observed".

Operations are modelled sequentially: each public operation of the core is one
atomic transition on the `ConnState`/`TransportState` pair, with the shared
`exit_signal` flag passed in as the boolean value the operation's atomic loads
observe.
-/

/-- A live transport session, identified only by its stable identity
(`quinn::Connection::stable_id`). -/
structure Session where
  stableId : Nat
deriving DecidableEq

/-- A local transport endpoint; opaque to the core, so a bare tag. -/
abbrev Endpoint := Nat

/-- Error taxonomy of the transport primitives (`QuicConnectionError` in
`quic_connection_utils`): a connection error carrying an explicit
should-retry flag, or a timeout. -/
inductive QuicConnectionError where
  | ConnectionError (retry : Bool)
  | TimeOut
deriving DecidableEq

/-- Ghost trace of the core's interaction with the transport collaborator:
`connectPrimCalls` counts calls into the connect primitive,
`connectAttempts` counts connects actually started (the primitive checks
`exit_signal` at its loop entry and starts nothing when it is set),
`openCalls` / `writeCalls` count stream opens and payload writes,
`delivered` counts successful payload writes, `timeoutsSignaled` counts
`TimeOut` outcomes the transport handed back, and `sendAttempts` counts
iterations of `send_transaction`'s retry loop that passed the exit check. -/
structure TransportState where
  connectPrimCalls : Nat
  connectAttempts : Nat
  openCalls : Nat
  writeCalls : Nat
  delivered : Nat
  timeoutsSignaled : Nat
  sendAttempts : Nat
deriving DecidableEq

/-- The all-zero initial transport trace. -/
def TransportState.init : TransportState :=
  { connectPrimCalls := 0, connectAttempts := 0, openCalls := 0, writeCalls := 0,
    delivered := 0, timeoutsSignaled := 0, sendAttempts := 0 }

/-- Script of the external transport collaborator: the outcome of the n-th
started connect attempt, the n-th stream open and the n-th payload write. -/
structure Transport where
  connectResult : Nat → Option Session
  openResult : Nat → Except QuicConnectionError Unit
  writeResult : Nat → Except QuicConnectionError Unit

/-- Modelled from the spec: `QuicConnectionUtils::connect` (the repository's
`quic_connection_utils` module is not under `src/`).  Per the collaborator
contract it establishes a session or returns none on exhaustion, and it checks
`exit_signal` at its loop entry point, so when the flag is set it returns
without starting any connect attempt. -/
def transportConnect (tr : Transport) (exit_signal : Bool) (ts : TransportState) :
    Option Session × TransportState :=
  if exit_signal then
    (none, { ts with connectPrimCalls := ts.connectPrimCalls + 1 })
  else
    (tr.connectResult ts.connectAttempts,
     { ts with connectPrimCalls := ts.connectPrimCalls + 1,
               connectAttempts := ts.connectAttempts + 1 })

/-- Modelled from the spec: `QuicConnectionUtils::open_unistream` — opens an
outbound stream or reports a classified error; the script fixes the outcome of
the n-th open. -/
def transportOpen (tr : Transport) (ts : TransportState) :
    Except QuicConnectionError Unit × TransportState :=
  let r := tr.openResult ts.openCalls
  (r, { ts with openCalls := ts.openCalls + 1,
                timeoutsSignaled := ts.timeoutsSignaled +
                  (match r with | .error .TimeOut => 1 | _ => 0) })

/-- Modelled from the spec: `QuicConnectionUtils::write_all` — writes the full
payload or reports a classified error; a successful write is a delivered
payload. -/
def transportWrite (tr : Transport) (ts : TransportState) :
    Except QuicConnectionError Unit × TransportState :=
  let r := tr.writeResult ts.writeCalls
  (r, { ts with writeCalls := ts.writeCalls + 1,
                delivered := ts.delivered + (match r with | .ok _ => 1 | _ => 0),
                timeoutsSignaled := ts.timeoutsSignaled +
                  (match r with | .error .TimeOut => 1 | _ => 0) })

/-- State of one `QuicConnection`: the lock-protected optional session handle,
the `last_stable_id` staleness marker, the endpoint drawn at construction, the
configured `connection_retry_count`, the timeout counter and the
ever-connected flag. -/
structure ConnState where
  connection : Option Session
  last_stable_id : Nat
  endpoint : Endpoint
  connection_retry_count : Nat
  timeout_counters : Nat
  has_connected_once : Bool
deriving DecidableEq

/-- `QuicConnection::new`: no session yet, marker 0, zero timeouts, never
connected. -/
def QuicConnection.new (endpoint : Endpoint) (connection_retry_count : Nat) : ConnState :=
  { connection := none, last_stable_id := 0, endpoint := endpoint,
    connection_retry_count := connection_retry_count,
    timeout_counters := 0, has_connected_once := false }

/-- `QuicConnection::connect`: delegates to the transport connect primitive. -/
def QuicConnection.connect (exit_signal : Bool) (tr : Transport) (ts : TransportState) :
    Option Session × TransportState :=
  transportConnect tr exit_signal ts

/-- `QuicConnection::get_connection` (the spec's `get_usable_session`):
optimistic unlocked read, double-checked reconnect under the write lock when
the installed session's stable id equals `last_stable_id`, lazy first connect
when no session is installed.  The `.error` case embeds the
`expect("Connection cannot be None here")` panic. -/
def QuicConnection.get_connection (exit_signal : Bool) (tr : Transport)
    (s : ConnState) (ts : TransportState) :
    Except String (Option Session × ConnState × TransportState) :=
  let last_stable_id := s.last_stable_id
  let conn := s.connection
  match conn with
  | some connection =>
    if connection.stableId = last_stable_id then
      let current_stable_id := connection.stableId
      match s.connection with
      | none => .error "Connection cannot be None here"
      | some connection2 =>
        if connection2.stableId ≠ current_stable_id then
          .ok (some connection2, s, ts)
        else
          match QuicConnection.connect exit_signal tr ts with
          | (some new_conn, ts1) =>
            .ok (some new_conn, { s with connection := some new_conn }, ts1)
          | (none, ts1) =>
            .ok (none, s, ts1)
    else
      .ok (some connection, s, ts)
  | none =>
    match QuicConnection.connect exit_signal tr ts with
    | (connection, ts1) =>
      .ok (connection,
           { s with connection := connection, has_connected_once := true }, ts1)

/-- Control outcome of one iteration of `send_transaction`'s `for` loop. -/
inductive LoopCtl where
  | breakLoop
  | continueLoop
  | ret
deriving DecidableEq

/-- Lines 152-166 of the loop body: on `do_retry` record the failing session's
stable id into `last_stable_id` and break; otherwise the trailing
`if !do_retry { break; }` breaks as well. -/
def afterAttempt (do_retry : Bool) (current_stable_id : Nat)
    (s : ConnState) (ts : TransportState) :
    Except String (LoopCtl × ConnState × TransportState) :=
  if do_retry then
    .ok (.breakLoop, { s with last_stable_id := current_stable_id }, ts)
  else if !do_retry then
    .ok (.breakLoop, s, ts)
  else
    .ok (.continueLoop, s, ts)

/-- One iteration of `send_transaction`'s retry loop: exit check, session
acquisition, stream open, payload write, outcome classification. -/
def send_transaction_body (exit_signal : Bool) (tr : Transport)
    (s : ConnState) (ts : TransportState) :
    Except String (LoopCtl × ConnState × TransportState) :=
  if exit_signal then
    .ok (.ret, s, ts)
  else
    let ts0 := { ts with sendAttempts := ts.sendAttempts + 1 }
    match QuicConnection.get_connection exit_signal tr s ts0 with
    | .error e => .error e
    | .ok (connOpt, s1, ts1) =>
      match connOpt with
      | some connection =>
        let current_stable_id := connection.stableId
        match transportOpen tr ts1 with
        | (.ok _, ts2) =>
          match transportWrite tr ts2 with
          | (.ok _, ts3) =>
            afterAttempt false current_stable_id s1 ts3
          | (.error (.ConnectionError retry), ts3) =>
            afterAttempt retry current_stable_id s1 ts3
          | (.error .TimeOut, ts3) =>
            afterAttempt false current_stable_id
              { s1 with timeout_counters := s1.timeout_counters + 1 } ts3
        | (.error (.ConnectionError retry), ts2) =>
          afterAttempt retry current_stable_id s1 ts2
        | (.error .TimeOut, ts2) =>
          afterAttempt false current_stable_id
            { s1 with timeout_counters := s1.timeout_counters + 1 } ts2
      | none =>
        .ok (.breakLoop, s1, ts1)

/-- The `for _ in 0..connection_retry_count` loop, with the iteration budget as
fuel; `ret` and `breakLoop` both leave the loop, `continueLoop` proceeds to
the next iteration. -/
def send_transaction_go (exit_signal : Bool) (tr : Transport) :
    Nat → ConnState → TransportState → Except String (ConnState × TransportState)
  | 0, s, ts => .ok (s, ts)
  | Nat.succ n, s, ts =>
    match send_transaction_body exit_signal tr s ts with
    | .error e => .error e
    | .ok (.continueLoop, s1, ts1) => send_transaction_go exit_signal tr n s1 ts1
    | .ok (.breakLoop, s1, ts1) => .ok (s1, ts1)
    | .ok (.ret, s1, ts1) => .ok (s1, ts1)

/-- `QuicConnection::send_transaction`: runs the retry loop with the
configured `connection_retry_count` as its iteration budget. -/
def QuicConnection.send_transaction (exit_signal : Bool) (tr : Transport)
    (s : ConnState) (ts : TransportState) :
    Except String (ConnState × TransportState) :=
  send_transaction_go exit_signal tr s.connection_retry_count s ts

/-- `QuicConnection::get_timeout_count`. -/
def QuicConnection.get_timeout_count (s : ConnState) : Nat :=
  s.timeout_counters

/-- `QuicConnection::reset_timeouts`. -/
def QuicConnection.reset_timeouts (s : ConnState) : ConnState :=
  { s with timeout_counters := 0 }

/-- `QuicConnection::has_connected_atleast_once`. -/
def QuicConnection.has_connected_atleast_once (s : ConnState) : Bool :=
  s.has_connected_once

/-- State of a `QuicConnectionPool`: the fixed vector of connections and one
permit count per connection (the counting semaphores). -/
structure QuicConnectionPool where
  connections : List ConnState
  transactions_in_sending_semaphore : List Nat
deriving DecidableEq

/-- A `PooledConnection`: the selected connection's handle together with the
index of the permit set the held permit was drawn from. -/
structure PooledConnection where
  connection : ConnState
  permit : Nat
deriving DecidableEq

/-- Modelled from the spec: successive draws from the endpoint supply
(`RotatingQueue::get`, not under `src/`); the k-th draw yields
`endpointSupply k`, or none when the supply cannot produce an endpoint. -/
def drawEndpoints (endpointSupply : Nat → Option Endpoint) :
    Nat → Nat → Option (List Endpoint)
  | _, 0 => some []
  | start, Nat.succ k =>
    match endpointSupply start with
    | none => none
    | some e =>
      match drawEndpoints endpointSupply (start + 1) k with
      | none => none
      | some rest => some (e :: rest)

/-- `QuicConnectionPool::new`: builds `nb_connection` connections, each drawing
one endpoint from the supply (`expect("Should get and endpoint")` embedded as
the `.error` case), and `nb_connection` fresh semaphores each seeded with
`max_number_of_unistream_connection` permits. -/
def QuicConnectionPool.new (endpointSupply : Nat → Option Endpoint)
    (connection_retry_count : Nat) (nb_connection : Nat)
    (max_number_of_unistream_connection : Nat) :
    Except String QuicConnectionPool :=
  match drawEndpoints endpointSupply 0 nb_connection with
  | none => .error "Should get and endpoint"
  | some eps =>
    .ok { connections := eps.map (fun e => QuicConnection.new e connection_retry_count),
          transactions_in_sending_semaphore :=
            List.replicate nb_connection max_number_of_unistream_connection }

/-- Decrement the permit count of the i-th semaphore (one permit acquired). -/
def decPermitAt (permits : List Nat) (i : Nat) : List Nat :=
  permits.set i (permits.getD i 0 - 1)

/-- `QuicConnectionPool::get_pooled_connection`, with the index that won the
permit race passed in: pre-warms the selected connection (one
`get_connection` call) when it has never connected, and returns the guard
bundling the connection handle with its permit. -/
def QuicConnectionPool.get_pooled_connection (exit_signal : Bool) (tr : Transport)
    (p : QuicConnectionPool) (index : Nat) (ts : TransportState) :
    Except String (PooledConnection × QuicConnectionPool × TransportState) :=
  match p.connections.get? index with
  | none => .error "index out of bounds"
  | some connection =>
    if QuicConnection.has_connected_atleast_once connection = false then
      match QuicConnection.get_connection exit_signal tr connection ts with
      | .error e => .error e
      | .ok (_, c1, ts1) =>
        .ok ({ connection := c1, permit := index },
             { connections := p.connections.set index c1,
               transactions_in_sending_semaphore :=
                 decPermitAt p.transactions_in_sending_semaphore index },
             ts1)
    else
      .ok ({ connection := connection, permit := index },
           { connections := p.connections,
             transactions_in_sending_semaphore :=
               decPermitAt p.transactions_in_sending_semaphore index },
           ts)

/-- `QuicConnectionPool::len`. -/
def QuicConnectionPool.len (p : QuicConnectionPool) : Nat :=
  p.connections.length

/-- `QuicConnectionPool::is_empty`. -/
def QuicConnectionPool.is_empty (p : QuicConnectionPool) : Bool :=
  p.connections.isEmpty

/-! ### Path lemmas for `get_connection` -/

/-- Healthy fast path: an installed session whose stable id differs from the
staleness marker is returned as-is, with no lock write and no transport
interaction. -/
theorem get_connection_healthy (exit_signal : Bool) (tr : Transport)
    (s : ConnState) (ts : TransportState) (c : Session)
    (hc : s.connection = some c) (hne : c.stableId ≠ s.last_stable_id) :
    QuicConnection.get_connection exit_signal tr s ts = .ok (some c, s, ts) := by
  simp [QuicConnection.get_connection, hc, hne]

/-- Stale path: an installed session matching the staleness marker triggers
one call to the connect primitive; on success the new session is installed and
returned, on failure the old session is left installed and none is returned. -/
theorem get_connection_stale (exit_signal : Bool) (tr : Transport)
    (s : ConnState) (ts : TransportState) (c : Session)
    (hc : s.connection = some c) (heq : c.stableId = s.last_stable_id) :
    QuicConnection.get_connection exit_signal tr s ts =
      match transportConnect tr exit_signal ts with
      | (some new_conn, ts1) =>
        .ok (some new_conn, { s with connection := some new_conn }, ts1)
      | (none, ts1) => .ok (none, s, ts1) := by
  rcases htc : transportConnect tr exit_signal ts with ⟨r, ts1⟩
  cases r <;>
    simp [QuicConnection.get_connection, QuicConnection.connect, hc, heq, htc]

/-- Lazy-connect path: with no installed session, one call to the connect
primitive is made, its result (possibly none) is installed, and the
ever-connected flag is set. -/
theorem get_connection_none_path (exit_signal : Bool) (tr : Transport)
    (s : ConnState) (ts : TransportState) (hc : s.connection = none) :
    QuicConnection.get_connection exit_signal tr s ts =
      .ok ((transportConnect tr exit_signal ts).1,
           { s with connection := (transportConnect tr exit_signal ts).1,
                    has_connected_once := true },
           (transportConnect tr exit_signal ts).2) := by
  rcases htc : transportConnect tr exit_signal ts with ⟨r, ts1⟩
  simp [QuicConnection.get_connection, QuicConnection.connect, hc, htc]

/-- The connect primitive only touches the connect counters of the trace:
one more primitive call, at most one more started attempt, and no started
attempt at all when the exit signal is set. -/
theorem transportConnect_effects (tr : Transport) (exit_signal : Bool)
    (ts : TransportState) :
    (transportConnect tr exit_signal ts).2.openCalls = ts.openCalls ∧
    (transportConnect tr exit_signal ts).2.writeCalls = ts.writeCalls ∧
    (transportConnect tr exit_signal ts).2.sendAttempts = ts.sendAttempts ∧
    (transportConnect tr exit_signal ts).2.delivered = ts.delivered ∧
    (transportConnect tr exit_signal ts).2.timeoutsSignaled = ts.timeoutsSignaled ∧
    (transportConnect tr exit_signal ts).2.connectPrimCalls = ts.connectPrimCalls + 1 ∧
    (transportConnect tr exit_signal ts).2.connectAttempts ≤ ts.connectAttempts + 1 ∧
    (exit_signal = true →
      (transportConnect tr exit_signal ts).2.connectAttempts = ts.connectAttempts) := by
  cases exit_signal <;> simp [transportConnect]

/-- `get_connection` never returns the embedded panic. -/
theorem get_connection_ok (exit_signal : Bool) (tr : Transport)
    (s : ConnState) (ts : TransportState) :
    ∃ r s' ts',
      QuicConnection.get_connection exit_signal tr s ts = .ok (r, s', ts') := by
  cases hc : s.connection with
  | none => exact ⟨_, _, _, get_connection_none_path exit_signal tr s ts hc⟩
  | some c =>
    by_cases heq : c.stableId = s.last_stable_id
    · rw [get_connection_stale exit_signal tr s ts c hc heq]
      rcases htc : transportConnect tr exit_signal ts with ⟨r, ts1⟩
      cases r <;> exact ⟨_, _, _, rfl⟩
    · exact ⟨_, _, _, get_connection_healthy exit_signal tr s ts c hc heq⟩

/-- Aggregate effect of `get_connection` on the connection state and the
trace: the open/write/send counters, the delivery and timeout tallies, the
timeout counter, the staleness marker and the retry budget are all unchanged;
at most one connect attempt is started, and none when the exit signal is set;
the ever-connected flag never goes back to false; an installed session stays
installed. -/
theorem get_connection_effects (exit_signal : Bool) (tr : Transport)
    (s : ConnState) (ts : TransportState) (r : Option Session)
    (s' : ConnState) (ts' : TransportState)
    (h : QuicConnection.get_connection exit_signal tr s ts = .ok (r, s', ts')) :
    ts'.openCalls = ts.openCalls ∧
    ts'.writeCalls = ts.writeCalls ∧
    ts'.sendAttempts = ts.sendAttempts ∧
    ts'.delivered = ts.delivered ∧
    ts'.timeoutsSignaled = ts.timeoutsSignaled ∧
    ts'.connectAttempts ≤ ts.connectAttempts + 1 ∧
    (exit_signal = true → ts'.connectAttempts = ts.connectAttempts) ∧
    s'.timeout_counters = s.timeout_counters ∧
    s'.last_stable_id = s.last_stable_id ∧
    s'.connection_retry_count = s.connection_retry_count ∧
    (s.has_connected_once = true → s'.has_connected_once = true) ∧
    (∀ c, s.connection = some c → ∃ c2, s'.connection = some c2) := by
  cases hc : s.connection with
  | none =>
    rw [get_connection_none_path exit_signal tr s ts hc] at h
    simp only [Except.ok.injEq, Prod.mk.injEq] at h
    obtain ⟨hr, hs, hts⟩ := h
    subst hs hts
    have he := transportConnect_effects tr exit_signal ts
    refine ⟨he.1, he.2.1, he.2.2.1, he.2.2.2.1, he.2.2.2.2.1,
      he.2.2.2.2.2.2.1, he.2.2.2.2.2.2.2, rfl, rfl, rfl, ?_, ?_⟩
    · intro _; rfl
    · intro c hcon; exact Option.noConfusion hcon
  | some c =>
    by_cases heq : c.stableId = s.last_stable_id
    · rw [get_connection_stale exit_signal tr s ts c hc heq] at h
      rcases htc : transportConnect tr exit_signal ts with ⟨rc, ts1⟩
      rw [htc] at h
      have he := transportConnect_effects tr exit_signal ts
      rw [htc] at he
      cases rc with
      | none =>
        simp only [Except.ok.injEq, Prod.mk.injEq] at h
        obtain ⟨hr, hs, hts⟩ := h
        subst hs hts
        refine ⟨he.1, he.2.1, he.2.2.1, he.2.2.2.1, he.2.2.2.2.1,
          he.2.2.2.2.2.2.1, he.2.2.2.2.2.2.2, rfl, rfl, rfl, fun hm => hm, ?_⟩
        intro c2 _; exact ⟨c, hc⟩
      | some nc =>
        simp only [Except.ok.injEq, Prod.mk.injEq] at h
        obtain ⟨hr, hs, hts⟩ := h
        subst hs hts
        refine ⟨he.1, he.2.1, he.2.2.1, he.2.2.2.1, he.2.2.2.2.1,
          he.2.2.2.2.2.2.1, he.2.2.2.2.2.2.2, rfl, rfl, rfl, fun hm => hm, ?_⟩
        intro c2 _; exact ⟨nc, rfl⟩
    · rw [get_connection_healthy exit_signal tr s ts c hc heq] at h
      simp only [Except.ok.injEq, Prod.mk.injEq] at h
      obtain ⟨hr, hs, hts⟩ := h
      subst hs hts
      refine ⟨rfl, rfl, rfl, rfl, rfl, Nat.le_succ _, fun _ => rfl,
        rfl, rfl, rfl, fun hm => hm, ?_⟩
      intro c2 _; exact ⟨c, hc⟩

/-! ### Equation lemmas for the send loop -/

/-- The open primitive advances the open counter and tallies a signalled
timeout exactly when its outcome is `TimeOut`. -/
theorem transportOpen_effects (tr : Transport) (ts : TransportState) :
    (transportOpen tr ts).2.openCalls = ts.openCalls + 1 ∧
    (transportOpen tr ts).2.writeCalls = ts.writeCalls ∧
    (transportOpen tr ts).2.sendAttempts = ts.sendAttempts ∧
    (transportOpen tr ts).2.connectPrimCalls = ts.connectPrimCalls ∧
    (transportOpen tr ts).2.connectAttempts = ts.connectAttempts ∧
    (transportOpen tr ts).2.delivered = ts.delivered ∧
    (transportOpen tr ts).2.timeoutsSignaled = ts.timeoutsSignaled +
      (match (transportOpen tr ts).1 with | .error .TimeOut => 1 | _ => 0) := by
  simp [transportOpen]

/-- The write primitive advances the write counter, tallies a delivery exactly
on success and a signalled timeout exactly on `TimeOut`. -/
theorem transportWrite_effects (tr : Transport) (ts : TransportState) :
    (transportWrite tr ts).2.writeCalls = ts.writeCalls + 1 ∧
    (transportWrite tr ts).2.openCalls = ts.openCalls ∧
    (transportWrite tr ts).2.sendAttempts = ts.sendAttempts ∧
    (transportWrite tr ts).2.connectPrimCalls = ts.connectPrimCalls ∧
    (transportWrite tr ts).2.connectAttempts = ts.connectAttempts ∧
    (transportWrite tr ts).2.delivered = ts.delivered +
      (match (transportWrite tr ts).1 with | .ok _ => 1 | _ => 0) ∧
    (transportWrite tr ts).2.timeoutsSignaled = ts.timeoutsSignaled +
      (match (transportWrite tr ts).1 with | .error .TimeOut => 1 | _ => 0) := by
  simp [transportWrite]

/-- With `do_retry = false`, the trailing `if !do_retry` breaks the loop with
the state untouched. -/
theorem afterAttempt_false (cid : Nat) (s : ConnState) (ts : TransportState) :
    afterAttempt false cid s ts = .ok (.breakLoop, s, ts) := by
  simp [afterAttempt]

/-- With `do_retry = true`, the loop records the failing session's stable id
into `last_stable_id` and breaks. -/
theorem afterAttempt_true (cid : Nat) (s : ConnState) (ts : TransportState) :
    afterAttempt true cid s ts =
      .ok (.breakLoop, { s with last_stable_id := cid }, ts) := by
  simp [afterAttempt]

/-- Loop body with the exit signal set: immediate return, nothing touched. -/
theorem send_body_exit (tr : Transport) (s : ConnState) (ts : TransportState) :
    send_transaction_body true tr s ts = .ok (.ret, s, ts) := by
  simp [send_transaction_body]

/-- Loop body when session acquisition yields no session: warn and break. -/
theorem send_body_none (tr : Transport) (s : ConnState) (ts : TransportState)
    (s1 : ConnState) (ts1 : TransportState)
    (hg : QuicConnection.get_connection false tr s
        { ts with sendAttempts := ts.sendAttempts + 1 } = .ok (none, s1, ts1)) :
    send_transaction_body false tr s ts = .ok (.breakLoop, s1, ts1) := by
  unfold send_transaction_body
  rw [if_neg (by simp)]
  simp only [hg]

/-- Loop body when session acquisition yields a session: one stream open,
possibly one write, then outcome classification. -/
theorem send_body_some (tr : Transport) (s : ConnState) (ts : TransportState)
    (c : Session) (s1 : ConnState) (ts1 : TransportState)
    (hg : QuicConnection.get_connection false tr s
        { ts with sendAttempts := ts.sendAttempts + 1 } = .ok (some c, s1, ts1)) :
    send_transaction_body false tr s ts =
      match transportOpen tr ts1 with
      | (.ok _, ts2) =>
        match transportWrite tr ts2 with
        | (.ok _, ts3) => afterAttempt false c.stableId s1 ts3
        | (.error (.ConnectionError retry), ts3) =>
          afterAttempt retry c.stableId s1 ts3
        | (.error .TimeOut, ts3) =>
          afterAttempt false c.stableId
            { s1 with timeout_counters := s1.timeout_counters + 1 } ts3
      | (.error (.ConnectionError retry), ts2) =>
        afterAttempt retry c.stableId s1 ts2
      | (.error .TimeOut, ts2) =>
        afterAttempt false c.stableId
          { s1 with timeout_counters := s1.timeout_counters + 1 } ts2 := by
  unfold send_transaction_body
  rw [if_neg (by simp)]
  simp only [hg]

/-- Reachability invariant of a `QuicConnection`: before the first connect
(while `has_connected_once` is still false) no session is installed.  It holds
at construction and is preserved by every operation. -/
abbrev ConnReachInv (s : ConnState) : Prop :=
  s.has_connected_once = false → s.connection = none

/-- The invariant holds at construction. -/
theorem connReachInv_new (endpoint : Endpoint) (connection_retry_count : Nat) :
    ConnReachInv (QuicConnection.new endpoint connection_retry_count) :=
  fun _ => rfl

/-- `get_connection` preserves the reachability invariant. -/
theorem connReachInv_get_connection (exit_signal : Bool) (tr : Transport)
    (s : ConnState) (ts : TransportState) (r : Option Session)
    (s' : ConnState) (ts' : TransportState)
    (h : QuicConnection.get_connection exit_signal tr s ts = .ok (r, s', ts'))
    (hinv : ConnReachInv s) : ConnReachInv s' := by
  cases hc : s.connection with
  | none =>
    rw [get_connection_none_path exit_signal tr s ts hc] at h
    simp only [Except.ok.injEq, Prod.mk.injEq] at h
    obtain ⟨-, hs, -⟩ := h
    subst hs
    intro hm
    simp at hm
  | some c =>
    by_cases heq : c.stableId = s.last_stable_id
    · rw [get_connection_stale exit_signal tr s ts c hc heq] at h
      rcases htc : transportConnect tr exit_signal ts with ⟨rc, ts1⟩
      rw [htc] at h
      cases rc with
      | none =>
        simp only [Except.ok.injEq, Prod.mk.injEq] at h
        obtain ⟨-, hs, -⟩ := h
        subst hs
        exact hinv
      | some nc =>
        simp only [Except.ok.injEq, Prod.mk.injEq] at h
        obtain ⟨-, hs, -⟩ := h
        subst hs
        intro hm
        have h2 := hinv hm
        rw [hc] at h2
        simp at h2
    · rw [get_connection_healthy exit_signal tr s ts c hc heq] at h
      simp only [Except.ok.injEq, Prod.mk.injEq] at h
      obtain ⟨-, hs, -⟩ := h
      subst hs
      exact hinv

/-- Postcondition of one exit-clear loop iteration: the loop never continues,
exactly one send attempt is counted, at most one open and one write are made,
the timeout counter advances by exactly the number of timeouts the transport
signalled and never decreases, the retry budget is preserved, the
ever-connected flag never goes back to false, and an installed session stays
installed. -/
abbrev SendBodyPost (s : ConnState) (ts : TransportState)
    (ctl : LoopCtl) (s' : ConnState) (ts' : TransportState) : Prop :=
  ctl ≠ LoopCtl.continueLoop ∧
  ts'.sendAttempts = ts.sendAttempts + 1 ∧
  ts'.openCalls ≤ ts.openCalls + 1 ∧
  ts'.writeCalls ≤ ts.writeCalls + 1 ∧
  s'.timeout_counters + ts.timeoutsSignaled
    = s.timeout_counters + ts'.timeoutsSignaled ∧
  s.timeout_counters ≤ s'.timeout_counters ∧
  s'.connection_retry_count = s.connection_retry_count ∧
  (s.has_connected_once = true → s'.has_connected_once = true) ∧
  (∀ c, s.connection = some c → ∃ c2, s'.connection = some c2) ∧
  (ConnReachInv s → ConnReachInv s')

/-- Assembling the body postcondition from an `afterAttempt`-shaped body
equation and facts about the attempt's end state. -/
theorem send_body_assemble (tr : Transport) (s : ConnState) (ts : TransportState)
    (retry : Bool) (cid : Nat) (sX : ConnState) (tsY : TransportState)
    (hbody : send_transaction_body false tr s ts = afterAttempt retry cid sX tsY)
    (hSend : tsY.sendAttempts = ts.sendAttempts + 1)
    (hOpen : tsY.openCalls ≤ ts.openCalls + 1)
    (hWrite : tsY.writeCalls ≤ ts.writeCalls + 1)
    (hTcEq : sX.timeout_counters + ts.timeoutsSignaled
      = s.timeout_counters + tsY.timeoutsSignaled)
    (hTcMono : s.timeout_counters ≤ sX.timeout_counters)
    (hRetryCt : sX.connection_retry_count = s.connection_retry_count)
    (hFlag : s.has_connected_once = true → sX.has_connected_once = true)
    (hConn : ∀ c, s.connection = some c → ∃ c2, sX.connection = some c2)
    (hReach : ConnReachInv s → ConnReachInv sX) :
    ∃ ctl s' ts', send_transaction_body false tr s ts = .ok (ctl, s', ts') ∧
      SendBodyPost s ts ctl s' ts' := by
  cases retry with
  | false =>
    rw [afterAttempt_false] at hbody
    exact ⟨.breakLoop, sX, tsY, hbody, by simp, hSend, hOpen, hWrite,
      hTcEq, hTcMono, hRetryCt, hFlag, hConn, hReach⟩
  | true =>
    rw [afterAttempt_true] at hbody
    exact ⟨.breakLoop, { sX with last_stable_id := cid }, tsY, hbody, by simp,
      hSend, hOpen, hWrite, hTcEq, hTcMono, hRetryCt, hFlag, hConn, hReach⟩

/-- Every exit-clear loop iteration terminates normally and satisfies the body
postcondition. -/
theorem send_body_false_spec (tr : Transport) (s : ConnState) (ts : TransportState) :
    ∃ ctl s' ts', send_transaction_body false tr s ts = .ok (ctl, s', ts') ∧
      SendBodyPost s ts ctl s' ts' := by
  obtain ⟨r, s1, ts1, hg⟩ :=
    get_connection_ok false tr s { ts with sendAttempts := ts.sendAttempts + 1 }
  have hge := get_connection_effects false tr s _ r s1 ts1 hg
  have hOpen1 : ts1.openCalls = ts.openCalls := hge.1
  have hWrite1 : ts1.writeCalls = ts.writeCalls := hge.2.1
  have hSend1 : ts1.sendAttempts = ts.sendAttempts + 1 := hge.2.2.1
  have hSig1 : ts1.timeoutsSignaled = ts.timeoutsSignaled := hge.2.2.2.2.1
  have hTc1 : s1.timeout_counters = s.timeout_counters := hge.2.2.2.2.2.2.2.1
  have hRetry1 : s1.connection_retry_count = s.connection_retry_count :=
    hge.2.2.2.2.2.2.2.2.2.1
  have hFlag1 : s.has_connected_once = true → s1.has_connected_once = true :=
    hge.2.2.2.2.2.2.2.2.2.2.1
  have hConn1 : ∀ c, s.connection = some c → ∃ c2, s1.connection = some c2 :=
    hge.2.2.2.2.2.2.2.2.2.2.2
  have hReach1 : ConnReachInv s → ConnReachInv s1 := fun hinv =>
    connReachInv_get_connection false tr s _ r s1 ts1 hg hinv
  cases r with
  | none =>
    exact ⟨.breakLoop, s1, ts1, send_body_none tr s ts s1 ts1 hg, by simp,
      hSend1, by omega, by omega, by omega, by omega, hRetry1, hFlag1, hConn1,
      hReach1⟩
  | some c =>
    have hb := send_body_some tr s ts c s1 ts1 hg
    cases horr : tr.openResult ts1.openCalls with
    | error e =>
      cases e with
      | ConnectionError retry =>
        simp only [transportOpen, horr, Nat.add_zero] at hb
        refine send_body_assemble tr s ts retry c.stableId s1 _ hb
          ?_ ?_ ?_ ?_ ?_ hRetry1 hFlag1 hConn1 hReach1
        · show ts1.sendAttempts = ts.sendAttempts + 1; exact hSend1
        · show ts1.openCalls + 1 ≤ ts.openCalls + 1; omega
        · show ts1.writeCalls ≤ ts.writeCalls + 1; omega
        · show s1.timeout_counters + ts.timeoutsSignaled
            = s.timeout_counters + ts1.timeoutsSignaled; omega
        · omega
      | TimeOut =>
        simp only [transportOpen, horr] at hb
        refine send_body_assemble tr s ts false c.stableId
          { s1 with timeout_counters := s1.timeout_counters + 1 } _ hb
          ?_ ?_ ?_ ?_ ?_ hRetry1 hFlag1 hConn1 hReach1
        · show ts1.sendAttempts = ts.sendAttempts + 1; exact hSend1
        · show ts1.openCalls + 1 ≤ ts.openCalls + 1; omega
        · show ts1.writeCalls ≤ ts.writeCalls + 1; omega
        · show (s1.timeout_counters + 1) + ts.timeoutsSignaled
            = s.timeout_counters + (ts1.timeoutsSignaled + 1); omega
        · show s.timeout_counters ≤ s1.timeout_counters + 1; omega
    | ok u =>
      simp only [transportOpen, horr, Nat.add_zero, transportWrite] at hb
      cases hwrr : tr.writeResult ts1.writeCalls with
      | ok v =>
        simp only [hwrr, Nat.add_zero] at hb
        refine send_body_assemble tr s ts false c.stableId s1 _ hb
          ?_ ?_ ?_ ?_ ?_ hRetry1 hFlag1 hConn1 hReach1
        · show ts1.sendAttempts = ts.sendAttempts + 1; exact hSend1
        · show ts1.openCalls + 1 ≤ ts.openCalls + 1; omega
        · show ts1.writeCalls + 1 ≤ ts.writeCalls + 1; omega
        · show s1.timeout_counters + ts.timeoutsSignaled
            = s.timeout_counters + ts1.timeoutsSignaled; omega
        · omega
      | error e =>
        cases e with
        | ConnectionError retry =>
          simp only [hwrr, Nat.add_zero] at hb
          refine send_body_assemble tr s ts retry c.stableId s1 _ hb
            ?_ ?_ ?_ ?_ ?_ hRetry1 hFlag1 hConn1 hReach1
          · show ts1.sendAttempts = ts.sendAttempts + 1; exact hSend1
          · show ts1.openCalls + 1 ≤ ts.openCalls + 1; omega
          · show ts1.writeCalls + 1 ≤ ts.writeCalls + 1; omega
          · show s1.timeout_counters + ts.timeoutsSignaled
              = s.timeout_counters + ts1.timeoutsSignaled; omega
          · omega
        | TimeOut =>
          simp only [hwrr, Nat.add_zero] at hb
          refine send_body_assemble tr s ts false c.stableId
            { s1 with timeout_counters := s1.timeout_counters + 1 } _ hb
            ?_ ?_ ?_ ?_ ?_ hRetry1 hFlag1 hConn1 hReach1
          · show ts1.sendAttempts = ts.sendAttempts + 1; exact hSend1
          · show ts1.openCalls + 1 ≤ ts.openCalls + 1; omega
          · show ts1.writeCalls + 1 ≤ ts.writeCalls + 1; omega
          · show (s1.timeout_counters + 1) + ts.timeoutsSignaled
              = s.timeout_counters + (ts1.timeoutsSignaled + 1); omega
          · show s.timeout_counters ≤ s1.timeout_counters + 1; omega

/-- Unfolding one loop iteration: since the body never continues, the whole
loop is decided by its first iteration. -/
theorem send_go_succ_of_body (exit_signal : Bool) (tr : Transport) (n : Nat)
    (s : ConnState) (ts : TransportState) (ctl : LoopCtl)
    (s' : ConnState) (ts' : TransportState)
    (hb : send_transaction_body exit_signal tr s ts = .ok (ctl, s', ts'))
    (hc : ctl ≠ LoopCtl.continueLoop) :
    send_transaction_go exit_signal tr (n + 1) s ts = .ok (s', ts') := by
  unfold send_transaction_go
  rw [hb]
  cases ctl with
  | continueLoop => exact absurd rfl hc
  | breakLoop => rfl
  | ret => rfl

/-- With the exit signal set, `send_transaction` returns at the top of the
loop with both the connection state and the transport trace untouched. -/
theorem send_exit (tr : Transport) (s : ConnState) (ts : TransportState) :
    QuicConnection.send_transaction true tr s ts = .ok (s, ts) := by
  unfold QuicConnection.send_transaction
  cases hn : s.connection_retry_count with
  | zero => simp [send_transaction_go]
  | succ m =>
    exact send_go_succ_of_body true tr m s ts .ret s ts (send_body_exit tr s ts)
      (by simp)

/-- Aggregate specification of one `send_transaction` call. -/
theorem send_spec (exit_signal : Bool) (tr : Transport) (s : ConnState)
    (ts : TransportState) (s' : ConnState) (ts' : TransportState)
    (h : QuicConnection.send_transaction exit_signal tr s ts = .ok (s', ts')) :
    ts'.sendAttempts ≤ ts.sendAttempts + min s.connection_retry_count 1 ∧
    ts'.openCalls ≤ ts.openCalls + 1 ∧
    ts'.writeCalls ≤ ts.writeCalls + 1 ∧
    s'.timeout_counters + ts.timeoutsSignaled
      = s.timeout_counters + ts'.timeoutsSignaled ∧
    s.timeout_counters ≤ s'.timeout_counters ∧
    (exit_signal = true → s' = s ∧ ts' = ts) ∧
    (∀ c, s.connection = some c → ∃ c2, s'.connection = some c2) ∧
    (s.has_connected_once = true → s'.has_connected_once = true) ∧
    (ConnReachInv s → ConnReachInv s') := by
  unfold QuicConnection.send_transaction at h
  cases hn : s.connection_retry_count with
  | zero =>
    rw [hn] at h
    simp only [send_transaction_go, Except.ok.injEq, Prod.mk.injEq] at h
    obtain ⟨hs, hts⟩ := h
    subst hs hts
    refine ⟨by omega, by omega, by omega, rfl, Nat.le_refl _, fun _ => ⟨rfl, rfl⟩,
      ?_, fun hm => hm, fun hinv => hinv⟩
    intro c hc; exact ⟨c, hc⟩
  | succ m =>
    rw [hn] at h
    cases exit_signal with
    | true =>
      rw [send_go_succ_of_body true tr m s ts .ret s ts (send_body_exit tr s ts)
        (by simp)] at h
      simp only [Except.ok.injEq, Prod.mk.injEq] at h
      obtain ⟨hs, hts⟩ := h
      subst hs hts
      refine ⟨by omega, by omega, by omega, rfl, Nat.le_refl _, fun _ => ⟨rfl, rfl⟩,
        ?_, fun hm => hm, fun hinv => hinv⟩
      intro c hc; exact ⟨c, hc⟩
    | false =>
      obtain ⟨ctl, s1, ts1, hb, hpost⟩ := send_body_false_spec tr s ts
      rw [send_go_succ_of_body false tr m s ts ctl s1 ts1 hb hpost.1] at h
      simp only [Except.ok.injEq, Prod.mk.injEq] at h
      obtain ⟨hs, hts⟩ := h
      subst hs hts
      obtain ⟨-, h2, h3, h4, h5, h6, h7, h8, h9, h10⟩ := hpost
      exact ⟨by omega, h3, h4, h5, h6, fun hx => absurd hx (by simp), h9, h8, h10⟩

/-! ### Endpoint supply and pool lemmas -/

/-- A successful draw of `n` endpoints starting at `start` has length `n` and
its i-th element is the supply's value at `start + i`. -/
theorem drawEndpoints_spec (endpointSupply : Nat → Option Endpoint) :
    ∀ n start eps, drawEndpoints endpointSupply start n = some eps →
      eps.length = n ∧ ∀ i, i < n → endpointSupply (start + i) = eps.get? i := by
  intro n
  induction n with
  | zero =>
    intro start eps h
    simp only [drawEndpoints, Option.some.injEq] at h
    subst h
    exact ⟨rfl, fun i hi => absurd hi (by omega)⟩
  | succ k ih =>
    intro start eps h
    unfold drawEndpoints at h
    cases he : endpointSupply start with
    | none => rw [he] at h; simp at h
    | some e =>
      rw [he] at h
      cases hd : drawEndpoints endpointSupply (start + 1) k with
      | none => rw [hd] at h; simp at h
      | some rest =>
        rw [hd] at h
        simp only [Option.some.injEq] at h
        subst h
        obtain ⟨hlen, hget⟩ := ih (start + 1) rest hd
        refine ⟨by simp [hlen], ?_⟩
        intro i hi
        cases i with
        | zero => simpa using he
        | succ j =>
          have hj := hget j (by omega)
          rw [show start + (j + 1) = start + 1 + j by omega]
          simpa using hj

/-- A failed draw pinpoints a draw index at which the supply produced
nothing. -/
theorem drawEndpoints_none_exists (endpointSupply : Nat → Option Endpoint) :
    ∀ n start, drawEndpoints endpointSupply start n = none →
      ∃ i, i < n ∧ endpointSupply (start + i) = none := by
  intro n
  induction n with
  | zero => intro start h; simp [drawEndpoints] at h
  | succ k ih =>
    intro start h
    unfold drawEndpoints at h
    cases he : endpointSupply start with
    | none => exact ⟨0, by omega, by simpa using he⟩
    | some e =>
      rw [he] at h
      cases hd : drawEndpoints endpointSupply (start + 1) k with
      | none =>
        obtain ⟨i, hi, hni⟩ := ih (start + 1) hd
        refine ⟨i + 1, by omega, ?_⟩
        rw [show start + (i + 1) = start + 1 + i by omega]
        exact hni
      | some rest => rw [hd] at h; simp at h

/-- An index at which `get?` retrieves an element lies within the list. -/
theorem get?_some_lt {α : Type} (l : List α) (n : Nat) (x : α)
    (h : l.get? n = some x) : n < l.length := by
  rw [List.get?_eq_getElem?] at h
  exact (List.getElem?_eq_some.mp h).1

/-- `get_pooled_connection` on an already-warm connection: no transport
interaction at all, one permit taken. -/
theorem get_pooled_eq_warm (exit_signal : Bool) (tr : Transport)
    (p : QuicConnectionPool) (index : Nat) (ts : TransportState) (c : ConnState)
    (hc : p.connections.get? index = some c)
    (hf : c.has_connected_once = true) :
    QuicConnectionPool.get_pooled_connection exit_signal tr p index ts =
      .ok (⟨c, index⟩,
           { connections := p.connections,
             transactions_in_sending_semaphore :=
               decPermitAt p.transactions_in_sending_semaphore index }, ts) := by
  unfold QuicConnectionPool.get_pooled_connection
  rw [hc]
  simp [QuicConnection.has_connected_atleast_once, hf]

/-- `get_pooled_connection` on a never-connected connection: one pre-warm
`get_connection` call, whose resulting state is stored back and handed out. -/
theorem get_pooled_eq_cold (exit_signal : Bool) (tr : Transport)
    (p : QuicConnectionPool) (index : Nat) (ts : TransportState) (c : ConnState)
    (r : Option Session) (c1 : ConnState) (ts1 : TransportState)
    (hc : p.connections.get? index = some c)
    (hf : c.has_connected_once = false)
    (hg : QuicConnection.get_connection exit_signal tr c ts = .ok (r, c1, ts1)) :
    QuicConnectionPool.get_pooled_connection exit_signal tr p index ts =
      .ok (⟨c1, index⟩,
           { connections := p.connections.set index c1,
             transactions_in_sending_semaphore :=
               decPermitAt p.transactions_in_sending_semaphore index }, ts1) := by
  unfold QuicConnectionPool.get_pooled_connection
  rw [hc]
  simp [QuicConnection.has_connected_atleast_once, hf, hg]

/-! ### Concrete scenario data -/

/-- Mock transport of the retry-once scenario: connect attempts always succeed
with fresh stable ids 1, 2, …; the first stream open reports
`ConnectionError{retry:true}`, all later opens succeed; writes always
succeed. -/
def retryOnceTransport : Transport :=
  { connectResult := fun n => some ⟨n + 1⟩,
    openResult := fun n => if n = 0 then .error (.ConnectionError true) else .ok (),
    writeResult := fun _ => .ok () }

/-- Mock transport whose connect attempts always fail; opens and writes would
succeed. -/
def failingConnectTransport : Transport :=
  { connectResult := fun _ => none,
    openResult := fun _ => .ok (),
    writeResult := fun _ => .ok () }

/-- Connection state after the first `send_transaction` call of the
retry-once scenario: session 1 installed and marked suspect, nothing
delivered. -/
def sOne : ConnState :=
  { connection := some ⟨1⟩, last_stable_id := 1, endpoint := 0,
    connection_retry_count := 3, timeout_counters := 0,
    has_connected_once := true }

/-- Transport trace after the first `send_transaction` call of the retry-once
scenario: one connect, one open, no write, nothing delivered. -/
def tsOne : TransportState :=
  { connectPrimCalls := 1, connectAttempts := 1, openCalls := 1, writeCalls := 0,
    delivered := 0, timeoutsSignaled := 0, sendAttempts := 1 }

/-- Connection state after the second `send_transaction` call of the
retry-once scenario: the stale session was replaced by session 2. -/
def sTwo : ConnState :=
  { sOne with connection := some ⟨2⟩ }

/-- Transport trace after the second `send_transaction` call of the retry-once
scenario: one reconnect, one more open, one successful write. -/
def tsTwo : TransportState :=
  { connectPrimCalls := 2, connectAttempts := 2, openCalls := 2, writeCalls := 1,
    delivered := 1, timeoutsSignaled := 0, sendAttempts := 2 }

/-- A connection state whose installed session 5 is marked suspect (its stable
id equals `last_stable_id`). -/
def staleConn : ConnState :=
  { connection := some ⟨5⟩, last_stable_id := 5, endpoint := 0,
    connection_retry_count := 3, timeout_counters := 0,
    has_connected_once := true }

/-- A healthy connection state: installed session 7, no staleness marked. -/
def healthyConn : ConnState :=
  { connection := some ⟨7⟩, last_stable_id := 0, endpoint := 0,
    connection_retry_count := 3, timeout_counters := 0,
    has_connected_once := true }

/-- A one-connection pool holding an already-warm connection. -/
def warmPool : QuicConnectionPool :=
  { connections := [staleConn], transactions_in_sending_semaphore := [8] }

/-- A one-connection pool holding a freshly constructed connection. -/
def coldPool : QuicConnectionPool :=
  { connections := [QuicConnection.new 0 3],
    transactions_in_sending_semaphore := [2] }

/-! ### Claims -/

/-- C1 counterexample: with a transport that signals
`ConnectionError{retry:true}` exactly once (on the first stream open) and
succeeds on every later operation, a single `send_transaction` call does not
deliver the payload: it ends with zero delivered payloads and only the initial
connect attempt (no reconnect), refuting "a single call to send(payload)
delivers the payload after one internal reconnect". -/
theorem claim_C1_counterexample :
    QuicConnection.send_transaction false retryOnceTransport
        (QuicConnection.new 0 3) TransportState.init = .ok (sOne, tsOne) ∧
    tsOne.delivered = 0 ∧ tsOne.connectAttempts = 1 :=
  ⟨rfl, rfl, rfl⟩

/-- C1 (amended): in the retry-once scenario the first `send_transaction` call
delivers nothing — it records the failing session's stable id into the
staleness marker and returns — and the next `send_transaction` call performs
exactly one internal reconnect and delivers the payload; `timeout_counter`
remains 0 throughout both calls. -/
theorem claim_C1_amended :
    QuicConnection.send_transaction false retryOnceTransport
        (QuicConnection.new 0 3) TransportState.init = .ok (sOne, tsOne) ∧
    sOne.connection = some ⟨1⟩ ∧ sOne.last_stable_id = 1 ∧
    tsOne.delivered = 0 ∧ tsOne.connectAttempts = 1 ∧
    sOne.timeout_counters = 0 ∧ tsOne.timeoutsSignaled = 0 ∧
    QuicConnection.send_transaction false retryOnceTransport sOne tsOne =
      .ok (sTwo, tsTwo) ∧
    tsTwo.delivered = 1 ∧ tsTwo.connectAttempts = 2 ∧
    sTwo.timeout_counters = 0 ∧ tsTwo.timeoutsSignaled = 0 :=
  ⟨rfl, rfl, rfl, rfl, rfl, rfl, rfl, rfl, rfl, rfl, rfl, rfl⟩

/-- C2 counterexample: in the stale-session path with a failing reconnect,
`get_connection` returns none but the stored handle still holds session 5 —
it is not none, refuting "installs none as the stored session handle". -/
theorem claim_C2_counterexample :
    QuicConnection.get_connection false failingConnectTransport staleConn
        TransportState.init =
      .ok (none, staleConn,
           { TransportState.init with connectPrimCalls := 1,
                                      connectAttempts := 1 }) ∧
    staleConn.connection = some ⟨5⟩ ∧ staleConn.connection ≠ none :=
  ⟨rfl, rfl, by simp [staleConn]⟩

/-- C2 (amended): in `get_connection`'s stale-session path (session installed,
its stable id equal to `last_stable_id`, no concurrent replacement observed
under the write lock), when the reconnect fails the operation returns none but
leaves the stored session handle unchanged — the previous stale session stays
installed. -/
theorem claim_C2_amended (tr : Transport) (s : ConnState) (ts : TransportState)
    (c : Session) (hc : s.connection = some c)
    (hstale : c.stableId = s.last_stable_id)
    (hfail : tr.connectResult ts.connectAttempts = none) :
    QuicConnection.get_connection false tr s ts =
      .ok (none, s,
           { ts with connectPrimCalls := ts.connectPrimCalls + 1,
                     connectAttempts := ts.connectAttempts + 1 }) := by
  rw [get_connection_stale false tr s ts c hc hstale]
  simp [transportConnect, hfail]

/-- C2 witness: the amended statement at a concrete stale state. -/
theorem claim_C2_witness :
    QuicConnection.get_connection false failingConnectTransport staleConn
        TransportState.init =
      .ok (none, staleConn,
           { TransportState.init with connectPrimCalls := 1,
                                      connectAttempts := 1 }) :=
  claim_C2_amended failingConnectTransport staleConn TransportState.init ⟨5⟩
    rfl rfl rfl

/-- C3: every `send_transaction` call makes at most `connection_retry_count`
loop attempts — in fact at most one, so after a first definitive outcome no
further attempt (and so no retry beyond the first retryable signal) happens —
performs at most one stream open and one write, and with the exit signal set
at the top of the loop it returns before any attempt with all state
untouched. -/
theorem claim_C3 (exit_signal : Bool) (tr : Transport) (s : ConnState)
    (ts : TransportState) (s' : ConnState) (ts' : TransportState)
    (h : QuicConnection.send_transaction exit_signal tr s ts = .ok (s', ts')) :
    ts'.sendAttempts ≤ ts.sendAttempts + s.connection_retry_count ∧
    ts'.sendAttempts ≤ ts.sendAttempts + 1 ∧
    ts'.openCalls ≤ ts.openCalls + 1 ∧
    ts'.writeCalls ≤ ts.writeCalls + 1 ∧
    (exit_signal = true → s' = s ∧ ts' = ts) := by
  have hs := send_spec exit_signal tr s ts s' ts' h
  have h1 := hs.1
  exact ⟨by omega, by omega, hs.2.1, hs.2.2.1, hs.2.2.2.2.2.1⟩

/-- C3 witness: the bounds at the retry-once scenario's first call. -/
theorem claim_C3_witness :
    tsOne.sendAttempts ≤ TransportState.init.sendAttempts +
      (QuicConnection.new 0 3).connection_retry_count ∧
    tsOne.sendAttempts ≤ TransportState.init.sendAttempts + 1 ∧
    tsOne.openCalls ≤ TransportState.init.openCalls + 1 ∧
    tsOne.writeCalls ≤ TransportState.init.writeCalls + 1 ∧
    (false = true → sOne = QuicConnection.new 0 3 ∧
      tsOne = TransportState.init) :=
  claim_C3 false retryOnceTransport (QuicConnection.new 0 3)
    TransportState.init sOne tsOne rfl

/-- C5: `timeout_counter` advances by exactly the number of observed timeouts
during a `send_transaction` call (in particular it is unchanged by successful
sends and by retryable-connection-error outcomes), never decreases across
`send_transaction`, is untouched by `get_connection`, and is set to 0 by the
explicit reset operation. -/
theorem claim_C5 (exit_signal : Bool) (tr : Transport) (s : ConnState)
    (ts : TransportState) :
    (QuicConnection.reset_timeouts s).timeout_counters = 0 ∧
    (∀ r s' ts', QuicConnection.get_connection exit_signal tr s ts
        = .ok (r, s', ts') → s'.timeout_counters = s.timeout_counters) ∧
    (∀ s' ts', QuicConnection.send_transaction exit_signal tr s ts
        = .ok (s', ts') →
      s'.timeout_counters + ts.timeoutsSignaled
        = s.timeout_counters + ts'.timeoutsSignaled ∧
      s.timeout_counters ≤ s'.timeout_counters) := by
  refine ⟨rfl, ?_, ?_⟩
  · intro r s' ts' h
    exact (get_connection_effects exit_signal tr s ts r s' ts' h).2.2.2.2.2.2.2.1
  · intro s' ts' h
    have hs := send_spec exit_signal tr s ts s' ts' h
    exact ⟨hs.2.2.2.1, hs.2.2.2.2.1⟩

/-- C5 witness: the send conjunct at the retry-once scenario's first call. -/
theorem claim_C5_witness :
    sOne.timeout_counters + TransportState.init.timeoutsSignaled
      = (QuicConnection.new 0 3).timeout_counters + tsOne.timeoutsSignaled ∧
    (QuicConnection.new 0 3).timeout_counters ≤ sOne.timeout_counters :=
  (claim_C5 false retryOnceTransport (QuicConnection.new 0 3)
    TransportState.init).2.2 sOne tsOne rfl

/-- C9: `get_connection` never panics — it always returns `.ok`, so the
embedded `expect("Connection cannot be None here")` never fires — and neither
`get_connection` nor `send_transaction` ever changes the stored session from
present back to absent. -/
theorem claim_C9 (exit_signal : Bool) (tr : Transport) (s : ConnState)
    (ts : TransportState) :
    (∃ r s' ts', QuicConnection.get_connection exit_signal tr s ts
      = .ok (r, s', ts')) ∧
    (∀ e, QuicConnection.get_connection exit_signal tr s ts ≠ .error e) ∧
    (∀ c r s' ts', s.connection = some c →
      QuicConnection.get_connection exit_signal tr s ts = .ok (r, s', ts') →
      ∃ c2, s'.connection = some c2) ∧
    (∀ c s' ts', s.connection = some c →
      QuicConnection.send_transaction exit_signal tr s ts = .ok (s', ts') →
      ∃ c2, s'.connection = some c2) := by
  obtain ⟨r0, s0, ts0, hok⟩ := get_connection_ok exit_signal tr s ts
  refine ⟨⟨r0, s0, ts0, hok⟩, ?_, ?_, ?_⟩
  · intro e he
    rw [hok] at he
    exact absurd he (by simp)
  · intro c r s' ts' hc h
    exact (get_connection_effects exit_signal tr s ts r s' ts'
      h).2.2.2.2.2.2.2.2.2.2.2 c hc
  · intro c s' ts' hc h
    exact (send_spec exit_signal tr s ts s' ts' h).2.2.2.2.2.2.1 c hc

/-- C9 witness: session preservation at a concrete stale state whose
reconnect fails. -/
theorem claim_C9_witness :
    ∃ c2, staleConn.connection = some c2 :=
  (claim_C9 false failingConnectTransport staleConn TransportState.init).2.2.1
    ⟨5⟩ none staleConn
    { TransportState.init with connectPrimCalls := 1, connectAttempts := 1 }
    rfl rfl

/-- C10: with `connection_retry_count = 0`, `send_transaction` returns
immediately with the connection state and the transport trace (hence every
transport-call counter, the stored session, `last_stable_id`,
`timeout_counters` and the ever-connected flag) unchanged. -/
theorem claim_C10 (exit_signal : Bool) (tr : Transport) (s : ConnState)
    (ts : TransportState) (h : s.connection_retry_count = 0) :
    QuicConnection.send_transaction exit_signal tr s ts = .ok (s, ts) := by
  unfold QuicConnection.send_transaction
  rw [h]
  rfl

/-- C10 witness: a zero-budget send on a fresh connection. -/
theorem claim_C10_witness :
    QuicConnection.send_transaction false retryOnceTransport
        (QuicConnection.new 0 0) TransportState.init =
      .ok (QuicConnection.new 0 0, TransportState.init) :=
  claim_C10 false retryOnceTransport (QuicConnection.new 0 0)
    TransportState.init rfl

/-- The connect primitive with the exit signal clear: one started attempt. -/
theorem transportConnect_false (tr : Transport) (ts : TransportState) :
    transportConnect tr false ts =
      (tr.connectResult ts.connectAttempts,
       { ts with connectPrimCalls := ts.connectPrimCalls + 1,
                 connectAttempts := ts.connectAttempts + 1 }) := rfl

/-- The connect primitive with the exit signal set: no started attempt. -/
theorem transportConnect_true (tr : Transport) (ts : TransportState) :
    transportConnect tr true ts =
      (none, { ts with connectPrimCalls := ts.connectPrimCalls + 1 }) := rfl

/-- C4: after a `send_transaction` call observes a retryable connection error
on the healthy installed session — storing that session's stable id into
`last_stable_id` — the next `get_connection` call on the same connection makes
exactly one call to the transport connect primitive (exactly one started
attempt) and, when the primitive produces a session, installs and returns
it. -/
theorem claim_C4 (tr : Transport) (s : ConnState) (ts : TransportState)
    (c : Session) (s' : ConnState) (ts' : TransportState)
    (hrc : 1 ≤ s.connection_retry_count)
    (hc : s.connection = some c)
    (hhealthy : c.stableId ≠ s.last_stable_id)
    (hopen : tr.openResult ts.openCalls = .error (.ConnectionError true))
    (h : QuicConnection.send_transaction false tr s ts = .ok (s', ts')) :
    s'.connection = some c ∧ s'.last_stable_id = c.stableId ∧
    (∀ r s2 ts2,
      QuicConnection.get_connection false tr s' ts' = .ok (r, s2, ts2) →
      ts2.connectPrimCalls = ts'.connectPrimCalls + 1 ∧
      ts2.connectAttempts = ts'.connectAttempts + 1 ∧
      (∀ ns, tr.connectResult ts'.connectAttempts = some ns →
        r = some ns ∧ s2.connection = some ns)) := by
  obtain ⟨m, hm⟩ : ∃ m, s.connection_retry_count = m + 1 :=
    ⟨s.connection_retry_count - 1, by omega⟩
  have hg : QuicConnection.get_connection false tr s
      { ts with sendAttempts := ts.sendAttempts + 1 } =
      .ok (some c, s, { ts with sendAttempts := ts.sendAttempts + 1 }) :=
    get_connection_healthy false tr s _ c hc hhealthy
  have hb := send_body_some tr s ts c s _ hg
  simp only [transportOpen, hopen, Nat.add_zero] at hb
  rw [afterAttempt_true] at hb
  unfold QuicConnection.send_transaction at h
  rw [hm] at h
  rw [send_go_succ_of_body false tr m s ts _ _ _ hb (by simp)] at h
  simp only [Except.ok.injEq, Prod.mk.injEq] at h
  obtain ⟨hs, hts⟩ := h
  subst hs
  refine ⟨hc, rfl, ?_⟩
  intro r s2 ts2 hg2
  rw [get_connection_stale false tr { s with last_stable_id := c.stableId } ts'
    c hc rfl, transportConnect_false] at hg2
  cases hcr : tr.connectResult ts'.connectAttempts with
  | none =>
    rw [hcr] at hg2
    simp only [Except.ok.injEq, Prod.mk.injEq] at hg2
    obtain ⟨hr, hs2, hts2⟩ := hg2
    subst hr hs2 hts2
    refine ⟨rfl, rfl, ?_⟩
    intro ns hns
    exact absurd hns (by simp)
  | some nc =>
    rw [hcr] at hg2
    simp only [Except.ok.injEq, Prod.mk.injEq] at hg2
    obtain ⟨hr, hs2, hts2⟩ := hg2
    subst hr hs2 hts2
    refine ⟨rfl, rfl, ?_⟩
    intro ns hns
    simp only [Option.some.injEq] at hns
    subst hns
    exact ⟨rfl, rfl⟩

/-- Connection state after a send on the healthy connection observed a
retryable error: session 7 is now marked suspect. -/
def c4s : ConnState := { healthyConn with last_stable_id := 7 }

/-- Transport trace after that send: one open, no connect (the session was
already installed), nothing delivered. -/
def c4ts : TransportState :=
  { connectPrimCalls := 0, connectAttempts := 0, openCalls := 1, writeCalls := 0,
    delivered := 0, timeoutsSignaled := 0, sendAttempts := 1 }

/-- C4 witness: the reconnect-once property at the concrete healthy state. -/
theorem claim_C4_witness :
    c4s.connection = some ⟨7⟩ ∧ c4s.last_stable_id = (⟨7⟩ : Session).stableId ∧
    (∀ r s2 ts2,
      QuicConnection.get_connection false retryOnceTransport c4s c4ts
        = .ok (r, s2, ts2) →
      ts2.connectPrimCalls = c4ts.connectPrimCalls + 1 ∧
      ts2.connectAttempts = c4ts.connectAttempts + 1 ∧
      (∀ ns, retryOnceTransport.connectResult c4ts.connectAttempts = some ns →
        r = some ns ∧ s2.connection = some ns)) :=
  claim_C4 retryOnceTransport healthyConn TransportState.init ⟨7⟩ c4s c4ts
    (by decide) rfl (by decide) rfl rfl

/-- C6: with the exit signal set, no transport attempt is started by any core
operation: `send_transaction` returns at the top of its retry loop with
nothing changed, `get_connection` starts no connect attempt and makes no open
or write, and pool acquisition — including its first-use pre-warm, whose
connect primitive checks the exit signal internally — starts no attempt
either. -/
theorem claim_C6 (tr : Transport) (s : ConnState) (ts : TransportState)
    (p : QuicConnectionPool) (index : Nat) :
    QuicConnection.send_transaction true tr s ts = .ok (s, ts) ∧
    (∀ r s' ts', QuicConnection.get_connection true tr s ts = .ok (r, s', ts') →
      ts'.connectAttempts = ts.connectAttempts ∧
      ts'.openCalls = ts.openCalls ∧ ts'.writeCalls = ts.writeCalls) ∧
    (∀ pc p' ts', QuicConnectionPool.get_pooled_connection true tr p index ts
        = .ok (pc, p', ts') →
      ts'.connectAttempts = ts.connectAttempts ∧
      ts'.openCalls = ts.openCalls ∧ ts'.writeCalls = ts.writeCalls) := by
  refine ⟨send_exit tr s ts, ?_, ?_⟩
  · intro r s' ts' h
    have he := get_connection_effects true tr s ts r s' ts' h
    exact ⟨he.2.2.2.2.2.2.1 rfl, he.1, he.2.1⟩
  · intro pc p' ts' h
    cases hg : p.connections.get? index with
    | none =>
      unfold QuicConnectionPool.get_pooled_connection at h
      rw [hg] at h
      simp at h
    | some c =>
      cases hb : c.has_connected_once with
      | true =>
        rw [get_pooled_eq_warm true tr p index ts c hg hb] at h
        simp only [Except.ok.injEq, Prod.mk.injEq] at h
        obtain ⟨-, -, h3⟩ := h
        subst h3
        exact ⟨rfl, rfl, rfl⟩
      | false =>
        obtain ⟨r, c1, ts1, hgc⟩ := get_connection_ok true tr c ts
        rw [get_pooled_eq_cold true tr p index ts c r c1 ts1 hg hb hgc] at h
        simp only [Except.ok.injEq, Prod.mk.injEq] at h
        obtain ⟨-, -, h3⟩ := h
        subst h3
        have he := get_connection_effects true tr c ts r c1 ts1 hgc
        exact ⟨he.2.2.2.2.2.2.1 rfl, he.1, he.2.1⟩

/-- C6 witness: the pool conjunct at a concrete warm pool. -/
theorem claim_C6_witness :
    TransportState.init.connectAttempts = TransportState.init.connectAttempts ∧
    TransportState.init.openCalls = TransportState.init.openCalls ∧
    TransportState.init.writeCalls = TransportState.init.writeCalls :=
  (claim_C6 failingConnectTransport staleConn TransportState.init
    warmPool 0).2.2
    ⟨staleConn, 0⟩
    { connections := [staleConn], transactions_in_sending_semaphore := [7] }
    TransportState.init rfl

/-- C7: pool construction builds exactly `nb_connection` connections, the i-th
built from the i-th endpoint drawn from the supply, paired with
`nb_connection` permit sets each seeded with the configured permit count;
afterwards `len` equals `nb_connection` and `is_empty` holds exactly when
`nb_connection` is zero; construction fails exactly when the endpoint supply
cannot produce one of the required endpoints. -/
theorem claim_C7 (endpointSupply : Nat → Option Endpoint)
    (connection_retry_count nb_connection max_streams : Nat) :
    (∀ p, QuicConnectionPool.new endpointSupply connection_retry_count
        nb_connection max_streams = .ok p →
      p.len = nb_connection ∧
      (p.is_empty = true ↔ nb_connection = 0) ∧
      p.transactions_in_sending_semaphore =
        List.replicate nb_connection max_streams ∧
      (∀ i, i < nb_connection →
        p.connections.get? i = (endpointSupply i).map
          (fun e => QuicConnection.new e connection_retry_count))) ∧
    ((∃ e, QuicConnectionPool.new endpointSupply connection_retry_count
        nb_connection max_streams = .error e) ↔
      ∃ i, i < nb_connection ∧ endpointSupply i = none) := by
  constructor
  · intro p hp
    unfold QuicConnectionPool.new at hp
    cases hd : drawEndpoints endpointSupply 0 nb_connection with
    | none => rw [hd] at hp; simp at hp
    | some eps =>
      rw [hd] at hp
      simp only [Except.ok.injEq] at hp
      subst hp
      obtain ⟨hlen, hget⟩ :=
        drawEndpoints_spec endpointSupply nb_connection 0 eps hd
      refine ⟨?_, ?_, rfl, ?_⟩
      · show (eps.map _).length = nb_connection
        rw [List.length_map]
        exact hlen
      · show (eps.map _).isEmpty = true ↔ nb_connection = 0
        rw [List.isEmpty_iff, ← List.length_eq_zero, List.length_map, hlen]
      · intro i hi
        show (eps.map _).get? i = _
        rw [List.get?_map, ← hget i hi, Nat.zero_add]
  · constructor
    · rintro ⟨e, he⟩
      unfold QuicConnectionPool.new at he
      cases hd : drawEndpoints endpointSupply 0 nb_connection with
      | none =>
        obtain ⟨i, hi, hni⟩ :=
          drawEndpoints_none_exists endpointSupply nb_connection 0 hd
        exact ⟨i, hi, by simpa using hni⟩
      | some eps => rw [hd] at he; simp at he
    · rintro ⟨i, hi, hni⟩
      unfold QuicConnectionPool.new
      cases hd : drawEndpoints endpointSupply 0 nb_connection with
      | none => exact ⟨_, rfl⟩
      | some eps =>
        obtain ⟨hlen, hget⟩ :=
          drawEndpoints_spec endpointSupply nb_connection 0 eps hd
        have h1 := hget i hi
        rw [Nat.zero_add, hni] at h1
        have h2 : eps.length ≤ i := List.get?_eq_none.mp h1.symm
        omega

/-- A two-connection pool as constructed from the identity endpoint supply. -/
def twoPool : QuicConnectionPool :=
  { connections := [QuicConnection.new 0 4, QuicConnection.new 1 4],
    transactions_in_sending_semaphore := [5, 5] }

/-- C7 witness: the construction facts at a two-endpoint supply. -/
theorem claim_C7_witness :
    twoPool.len = 2 ∧ (twoPool.is_empty = true ↔ 2 = 0) ∧
    twoPool.transactions_in_sending_semaphore = List.replicate 2 5 ∧
    (∀ i, i < 2 →
      twoPool.connections.get? i = ((fun j => some j) i).map
        (fun e => QuicConnection.new e 4)) :=
  (claim_C7 (fun j => some j) 4 2 5).1 twoPool rfl

/-- C8: pool acquisition pre-warms a never-connected connection exactly once:
the returned guard's connection has its ever-connected flag set even when the
pre-warm connect attempt fails, the warmed state is stored back into the pool
slot, and a connection that has already connected is handed out untouched —
with no transport interaction, hence no second pre-warm over its lifetime. -/
theorem claim_C8 (exit_signal : Bool) (tr : Transport) (p : QuicConnectionPool)
    (index : Nat) (ts : TransportState) (c : ConnState)
    (hc : p.connections.get? index = some c) (hinv : ConnReachInv c) :
    ∃ pc p' ts',
      QuicConnectionPool.get_pooled_connection exit_signal tr p index ts
        = .ok (pc, p', ts') ∧
      pc.connection.has_connected_once = true ∧
      p'.connections.get? index = some pc.connection ∧
      (c.has_connected_once = true → pc.connection = c ∧ ts' = ts) := by
  have hlt : index < p.connections.length := get?_some_lt _ _ _ hc
  cases hb : c.has_connected_once with
  | true =>
    exact ⟨⟨c, index⟩, _, ts,
      get_pooled_eq_warm exit_signal tr p index ts c hc hb,
      hb, hc, fun _ => ⟨rfl, rfl⟩⟩
  | false =>
    have hnone : c.connection = none := hinv hb
    have hg := get_connection_none_path exit_signal tr c ts hnone
    refine ⟨⟨_, index⟩, _, _,
      get_pooled_eq_cold exit_signal tr p index ts c _ _ _ hc hb hg,
      rfl, ?_, ?_⟩
    · exact List.get?_set_eq_of_lt _ hlt
    · intro hm
      simp [hb] at hm

/-- C8 witness: the pre-warm at a concrete cold pool whose connect attempt
fails. -/
theorem claim_C8_witness :
    ∃ pc p' ts',
      QuicConnectionPool.get_pooled_connection false failingConnectTransport
          coldPool 0 TransportState.init = .ok (pc, p', ts') ∧
      pc.connection.has_connected_once = true ∧
      p'.connections.get? 0 = some pc.connection ∧
      ((QuicConnection.new 0 3).has_connected_once = true →
        pc.connection = QuicConnection.new 0 3 ∧ ts' = TransportState.init) :=
  claim_C8 false failingConnectTransport coldPool 0 TransportState.init
    (QuicConnection.new 0 3) rfl (fun _ => rfl)
